import Mathlib

/-!
Verification development for the natural-language-to-qualification compiler of
the Servies-ops-agent repository.

The Python sources under `src/` are shallowly embedded below.  Python `re`
patterns are embedded through a small backtracking regular-expression engine
(`RE`, `reRun`) whose priority order mirrors CPython's `re` module (leftmost
match, greedy/lazy quantifiers, left-biased alternation).  Python dicts are
embedded as insertion-ordered association lists, Python floats by exact
rationals, and functions that perform network I/O are parameterised by the
outcome of the transport call.  `print` diagnostics in the sources have no
effect on the returned values and are dropped.
-/

set_option maxRecDepth 20000

/-- Characters of a string; all embedded text processing works on `List Char`. -/
abbrev Chars := List Char

/-- ASCII lower-casing of one character (Python `str.lower` restricted to ASCII,
which is the only input alphabet the sources deal with). -/
def asciiLower (c : Char) : Char :=
  if 'A' ≤ c ∧ c ≤ 'Z' then Char.ofNat (c.toNat + 32) else c

/-- Lower-case a character list. -/
def lowerChars (s : Chars) : Chars := s.map asciiLower

/-- Python `\s` (ASCII whitespace). -/
def isSpaceChar (c : Char) : Bool :=
  c = ' ' ∨ c = '\t' ∨ c = '\n' ∨ c = '\x0d' ∨ c = '\x0b' ∨ c = '\x0c'

/-- Python `\d`. -/
def isDigitChar (c : Char) : Bool := '0' ≤ c ∧ c ≤ '9'

/-- Python `\w` (ASCII word character). -/
def isWordChar (c : Char) : Bool :=
  ('a' ≤ c ∧ c ≤ 'z') ∨ ('A' ≤ c ∧ c ≤ 'Z') ∨ isDigitChar c ∨ c = '_'

/-- Whether `needle` occurs as a contiguous sublist of `hay`
(Python's `needle in hay` on strings). -/
def substrAt (needle hay : Chars) (i : Nat) : Bool :=
  needle.isPrefixOf (hay.drop i)

def containsSub (hay needle : Chars) : Bool :=
  (List.range (hay.length + 1)).any (fun i => substrAt needle hay i)

/-- Python `str.strip()` (trim ASCII whitespace on both ends). -/
def stripChars (s : Chars) : Chars :=
  (s.dropWhile isSpaceChar).reverse.dropWhile isSpaceChar |>.reverse

/-- Python `str.split()` with no argument: split on whitespace runs,
dropping empty pieces. -/
def splitWs (s : Chars) : List Chars :=
  (s.splitOnP (fun c => isSpaceChar c)).filter (fun p => ¬ p.isEmpty)

/-- Python `str.split(sep)` for a non-empty separator string:
split on each non-overlapping occurrence, left to right. -/
def splitOnSub (sep : Chars) (s : Chars) : List Chars :=
  go s.length s []
where
  go : Nat → Chars → Chars → List Chars
    | 0, rest, acc => [acc.reverse ++ rest]
    | fuel+1, rest, acc =>
      if sep.isPrefixOf rest ∧ ¬ sep.isEmpty then
        acc.reverse :: go fuel (rest.drop sep.length) []
      else
        match rest with
        | [] => [acc.reverse]
        | c :: cs => go fuel cs (c :: acc)

/-- Parse a non-empty digit string as a natural number (Python `int` on a
string of digits). -/
def digitsToNat (s : Chars) : Nat :=
  s.foldl (fun acc c => acc * 10 + (c.toNat - '0'.toNat)) 0

/-- Distinct elements, keeping the first occurrence of each
(Python `list(dict.fromkeys(xs))`). -/
def dedupKeepFirstAux {α : Type} [DecidableEq α] : List α → List α → List α
  | [], _ => []
  | x :: xs, seen => if x ∈ seen then dedupKeepFirstAux xs seen
                     else x :: dedupKeepFirstAux xs (x :: seen)

def dedupKeepFirst {α : Type} [DecidableEq α] (xs : List α) : List α :=
  dedupKeepFirstAux xs []

/-! ## A small backtracking regex engine

Mirrors the fragment of CPython's `re` used by the sources: literal text,
character classes, concatenation, left-biased alternation, greedy and lazy
`?` / `*` / `+` / `{n,}`, one capture group, lookahead (positive and
negative), word boundary `\b` and end anchor `$`.  `reRun` enumerates the
ways a pattern can match at a position, in exactly the order CPython's
backtracking explores them, so taking the head gives CPython's match. -/

/-- The character classes appearing in the sources' patterns. -/
inductive CharCls where
  | word            -- `\w`
  | space           -- `\s`
  | digit           -- `\d`
  | lowerAlpha      -- `[a-z]`
  | lowerSpaceComma -- `[a-z\s,]`
  | lowerSpace      -- `[a-z\s]`
  | lowerDigitC     -- `[a-z0-9]`
  | notQuote        -- `[^"\x27]`
  | quoteC          -- `["\x27]`
  | colonEq         -- `[:=]`
deriving DecidableEq, Repr

def CharCls.memb : CharCls → Char → Bool
  | .word, c => isWordChar c
  | .space, c => isSpaceChar c
  | .digit, c => isDigitChar c
  | .lowerAlpha, c => 'a' ≤ c ∧ c ≤ 'z'
  | .lowerSpaceComma, c => ('a' ≤ c ∧ c ≤ 'z') ∨ isSpaceChar c ∨ c = ','
  | .lowerSpace, c => ('a' ≤ c ∧ c ≤ 'z') ∨ isSpaceChar c
  | .lowerDigitC, c => ('a' ≤ c ∧ c ≤ 'z') ∨ isDigitChar c
  | .notQuote, c => ¬ (c = '"' ∨ c = '\'')
  | .quoteC, c => c = '"' ∨ c = '\''
  | .colonEq, c => c = ':' ∨ c = '='

/-- Regular-expression abstract syntax. -/
inductive RE where
  | eps
  | lit (l : Chars)
  | cls (k : CharCls)
  | seq (a b : RE)
  | alt (a b : RE)
  | opt (r : RE) (lz : Bool)
  | star (r : RE) (lz : Bool)
  | grp (r : RE)
  | look (r : RE)
  | nlook (r : RE)
  | bow
  | eos
deriving DecidableEq, Repr

/-- Match state: current position and the span of capture group 1. -/
structure MSt where
  pos : Nat
  cap : Option (Nat × Nat)
deriving DecidableEq, Repr

def atWord (s : Chars) (i : Nat) : Bool :=
  match s.drop i with
  | c :: _ => isWordChar c
  | [] => false

/-- All ways `r` can match in `s` starting from `st`, in CPython's
backtracking priority order (head = the match `re` reports).  The fuel
decreases on every recursive call so the definition is structural (and so
reduces in the kernel); `reFuel` below is ample for the prompts and
patterns of this development. -/
def reRun : Nat → RE → Chars → MSt → List MSt
  | 0, _, _, _ => []
  | fuel + 1, r, s, st =>
    match r with
    | .eps => [st]
    | .lit l => if substrAt l s st.pos then [{ st with pos := st.pos + l.length }] else []
    | .cls k =>
      match s.drop st.pos with
      | [] => []
      | c :: _ => if k.memb c then [{ st with pos := st.pos + 1 }] else []
    | .seq a b => (reRun fuel a s st).flatMap (fun st₁ => reRun fuel b s st₁)
    | .alt a b => reRun fuel a s st ++ reRun fuel b s st
    | .opt r lz => if lz then st :: reRun fuel r s st else reRun fuel r s st ++ [st]
    | .star r lz =>
      let more :=
        ((reRun fuel r s st).filter (fun st₁ => st.pos < st₁.pos)).flatMap
          (fun st₁ => reRun fuel (.star r lz) s st₁)
      if lz then st :: more else more ++ [st]
    | .grp r => (reRun fuel r s st).map (fun st₁ => { st₁ with cap := some (st.pos, st₁.pos) })
    | .look r => if (reRun fuel r s st).isEmpty then [] else [st]
    | .nlook r => if (reRun fuel r s st).isEmpty then [st] else []
    | .bow =>
      let b := (st.pos ≠ 0 ∧ atWord s (st.pos - 1) = true : Bool)
      if b ≠ atWord s st.pos then [st] else []
    | .eos => if st.pos = s.length then [st] else []

def reFuel (s : Chars) : Nat := 4 * (s.length + 12) * (s.length + 12)

/-- Leftmost match beginning exactly at position `i`. -/
def reMatchAt (r : RE) (s : Chars) (i : Nat) : Option MSt :=
  (reRun (reFuel s) r s ⟨i, none⟩).head?

def reSearchAux (r : RE) (s : Chars) : Nat → Nat → Option (Nat × MSt)
  | _, 0 => none
  | i, fuel + 1 =>
    match reMatchAt r s i with
    | some st => some (i, st)
    | none => if i < s.length then reSearchAux r s (i + 1) fuel else none

/-- `re.search`: leftmost match anywhere in `s`. -/
def reSearch (r : RE) (s : Chars) : Option (Nat × MSt) :=
  reSearchAux r s 0 (s.length + 1)

def reTest (r : RE) (s : Chars) : Bool := (reSearch r s).isSome

/-- Contents of group 1 of a match (the whole match if no group was set). -/
def grp1 (s : Chars) (m : Nat × MSt) : Chars :=
  match m.2.cap with
  | some (a, b) => (s.take b).drop a
  | none => (s.take m.2.pos).drop m.1

/-- `re.search(...).group(1)` as an `Option`. -/
def reSearchGrp (r : RE) (s : Chars) : Option Chars :=
  (reSearch r s).map (grp1 s)

def reFindallAux (r : RE) (s : Chars) : Nat → Nat → List Chars
  | _, 0 => []
  | i, fuel + 1 =>
    match reSearchAux r s i (s.length + 1 - i) with
    | none => []
    | some (st0, st) =>
      grp1 s (st0, st) ::
        reFindallAux r s (if st0 < st.pos then st.pos else st0 + 1) fuel

/-- `re.findall` on a single-group pattern: group-1 text of every
non-overlapping match, left to right. -/
def reFindall (r : RE) (s : Chars) : List Chars := reFindallAux r s 0 (s.length + 2)

/-! Pattern-building helpers. -/

/-- Concatenation of a list of regexes. -/
def rcat (xs : List RE) : RE := xs.foldr RE.seq RE.eps

/-- Left-biased alternation of a list of regexes. -/
def ralt : List RE → RE
  | [] => RE.eps
  | [x] => x
  | x :: xs => RE.alt x (ralt xs)

def rlit (s : String) : RE := RE.lit s.data

/-- Greedy `r+`. -/
def rplus (r : RE) : RE := RE.seq r (RE.star r false)

/-- Lazy `r+?`. -/
def rplusL (r : RE) : RE := RE.seq r (RE.star r true)

/-- `r{n,}` (lazy when `lz`): `n` mandatory copies followed by a star. -/
def rmin (r : RE) : Nat → Bool → RE
  | 0, lz => RE.star r lz
  | n + 1, lz => RE.seq r (rmin r n lz)

/-- `\s+` -/
def sp1 : RE := rplus (RE.cls .space)

/-- `(\w+)` -/
def wgrp : RE := RE.grp (rplus (RE.cls .word))

/-- `equals?` -/
def reEquals : RE := RE.seq (rlit "equal") (RE.opt (rlit "s") false)

/-- `\b<word>\b` (the `re.escape`-built word patterns of the sources). -/
def wordRE (w : String) : RE := rcat [RE.bow, rlit w, RE.bow]

/-- `\b w₁ \s+ w₂ … \b` (the multi-word status pattern of
`_find_all_status_mentions`). -/
def wordSeqRE (ws : List String) : RE :=
  rcat ([RE.bow] ++ (ws.map rlit).intersperse sp1 ++ [RE.bow])

/-! ## Data model

The JSON qualification wire format, embedded as Lean structures.  A leaf is
either `RelationalQualificationRest` (with a right operand) or
`UnaryQualificationRest` (without one; its `value` is `noneV`).  The
`operandType` is the JSON `type` of the left operand / operand
(`PropertyOperandRest` or `VariableOperandRest`).  `qtype` is `""` where the
source emits a leaf dict without a `type` field (the local-intelligence
generator). -/

inductive QVal where
  | listLong (v : List Int)      -- ListLongValueRest
  | listString (v : List String) -- ListStringValueRest
  | str (v : String)             -- StringValueRest
  | boolV (v : Bool)             -- BooleanValueRest
  | duration (v : Int) (unit : String) -- DurationValueRest
  | time (v : String)            -- TimeValueRest
  | varRef (v : String)          -- rightOperand of type VariableOperandRest
  | noneV                        -- no rightOperand
deriving DecidableEq, Repr

structure Qual where
  qtype : String
  operandType : String
  key : String
  operator : String
  value : QVal
deriving DecidableEq, Repr

structure Payload where
  qdType : String
  quals : List Qual
deriving DecidableEq, Repr

def relLeaf (key op : String) (v : QVal) : Qual :=
  { qtype := "RelationalQualificationRest", operandType := "PropertyOperandRest",
    key := key, operator := op, value := v }

def relVarLeaf (key op : String) (v : QVal) : Qual :=
  { qtype := "RelationalQualificationRest", operandType := "VariableOperandRest",
    key := key, operator := op, value := v }

def unaryLeaf (key op : String) : Qual :=
  { qtype := "UnaryQualificationRest", operandType := "PropertyOperandRest",
    key := key, operator := op, value := QVal.noneV }

/-! Python dicts, embedded as insertion-ordered association lists with
Python's `d[k] = v` / `d.update(e)` semantics (an existing key keeps its
position, a new key is appended). -/

abbrev AListM := List (String × Int)

def aset (d : AListM) (k : String) (v : Int) : AListM :=
  if d.any (fun p => p.1 = k) then d.map (fun p => if p.1 = k then (k, v) else p)
  else d ++ [(k, v)]

def aupdate (d e : AListM) : AListM := e.foldl (fun acc p => aset acc p.1 p.2) d

def amem (d : AListM) (k : String) : Bool := d.any (fun p => p.1 = k)

def avalues (d : AListM) : List Int := d.map (·.2)

def amemC (d : AListM) (k : Chars) : Bool := d.any (fun p => p.1.data = k)

def afindC (d : AListM) (k : Chars) : Option (String × Int) :=
  d.find? (fun p => p.1.data = k)

def agetC (d : AListM) (k : Chars) : Int := ((afindC d k).map (·.2)).getD 0

/-- `ExtractionResult` of one field resolver: included / excluded
label→id maps and the operator hint. -/
structure FilterResult where
  included : AListM
  excluded : AListM
  operator : String
deriving DecidableEq, Repr

/-! ## multi_endpoint_agent.py — field resolvers

Each Python `re` pattern is transcribed to an `RE` value; the original
pattern is quoted in the doc comment. -/

/-- `(?:contains|includes|in|is|equals?|has)` -/
def verbAlt : RE :=
  ralt [rlit "contains", rlit "includes", rlit "in", rlit "is", reEquals, rlit "has"]

/-- `assignee\s+(?:contains|includes|in|is|equals?|has)\s+(\w+)` -/
def pat_u1 : RE := rcat [rlit "assignee", sp1, verbAlt, sp1, wgrp]

/-- `technician\s+(?:contains|includes|in|is|equals?|has)\s+(\w+)` -/
def pat_u2 : RE := rcat [rlit "technician", sp1, verbAlt, sp1, wgrp]

/-- `assigned\s+to\s+(\w+)` -/
def pat_u3 : RE := rcat [rlit "assigned", sp1, rlit "to", sp1, wgrp]

/-- `user\s+(?:is|named|called)\s+(\w+)` -/
def pat_u4 : RE := rcat [rlit "user", sp1, ralt [rlit "is", rlit "named", rlit "called"], sp1, wgrp]

/-- `requester\s+(?:is|named|called)\s+(\w+)` -/
def pat_u5 : RE := rcat [rlit "requester", sp1, ralt [rlit "is", rlit "named", rlit "called"], sp1, wgrp]

/-- `createdby\s+(\w+)` -/
def pat_u6 : RE := rcat [rlit "createdby", sp1, wgrp]

/-- `(?:by|from)\s+(\w+)` -/
def pat_u7 : RE := rcat [ralt [rlit "by", rlit "from"], sp1, wgrp]

def user_patterns : List RE := [pat_u1, pat_u2, pat_u3, pat_u4, pat_u5, pat_u6, pat_u7]

/-- `resolve_user_references`: resolution of one captured name against the
user mapping (special cases, exact, partial, API-unavailable fallback). -/
def resolve_user_match (user_mapping resolved : AListM) (m : Chars) : AListM :=
  if m = "unassigned".data ∨ m = "none".data ∨ m = "null".data then
    aset resolved (String.mk m) 0
  else if m = "autominds".data ∨ m = "automind".data then
    aset resolved (String.mk m) 0
  else if ¬ user_mapping.isEmpty ∧ amemC user_mapping m then
    aset resolved (String.mk m) (agetC user_mapping m)
  else if ¬ user_mapping.isEmpty then
    match user_mapping.find? (fun p => containsSub p.1.data m) with
    | some p => aset resolved (String.mk m) p.2
    | none => resolved
  else
    if m = "autominds".data ∨ m = "automind".data ∨ m = "unassigned".data then
      aset resolved (String.mk m) 0
    else resolved

/-- `MultiEndpointAgent.resolve_user_references` (the mapping that in the
source is fetched by `get_user_mapping` is a parameter). -/
def resolve_user_references (prompt : String) (user_mapping : AListM) : AListM :=
  let pl := lowerChars prompt.data
  user_patterns.foldl (fun resolved pat =>
    (reFindall pat pl).foldl (fun r m => resolve_user_match user_mapping r m) resolved) []

/-- `urgency\s+(?:is|as|equals?)\s+(\w+)` -/
def pat_g1 : RE := rcat [rlit "urgency", sp1, ralt [rlit "is", rlit "as", reEquals], sp1, wgrp]

/-- `urgency\s+(?:contains|includes)\s+(\w+)` -/
def pat_g2 : RE := rcat [rlit "urgency", sp1, ralt [rlit "contains", rlit "includes"], sp1, wgrp]

/-- `(\w+)\s+urgency` -/
def pat_g3 : RE := rcat [wgrp, sp1, rlit "urgency"]

/-- `priority\s+(?:is|as|equals?)\s+(\w+)` -/
def pat_g4 : RE := rcat [rlit "priority", sp1, ralt [rlit "is", rlit "as", reEquals], sp1, wgrp]

def urgency_patterns : List RE := [pat_g1, pat_g2, pat_g3, pat_g4]

/-- `MultiEndpointAgent.resolve_urgency_references`. -/
def resolve_urgency_references (prompt : String) (urgency_mapping : AListM) : AListM :=
  let pl := lowerChars prompt.data
  urgency_patterns.foldl (fun resolved pat =>
    (reFindall pat pl).foldl (fun r m =>
      match afindC urgency_mapping m with
      | some p => aset r (String.mk m) p.2
      | none => r) resolved) []

/-! ### Status / priority term parsing and scoring.

Python's float scores are embedded as exact (unnormalised) fractions so
that every comparison reduces in the kernel; on the values these
heuristics produce the float and exact comparisons agree. -/

/-- An exact score `num / den` (denominators are positive in every use). -/
structure Frac where
  num : Int
  den : Int
deriving DecidableEq, Repr

def fr (n d : Int) : Frac := ⟨n, d⟩

def Frac.add (a b : Frac) : Frac := ⟨a.num * b.den + b.num * a.den, a.den * b.den⟩

def Frac.mul (a b : Frac) : Frac := ⟨a.num * b.num, a.den * b.den⟩

/-- `a < b` by cross multiplication. -/
def Frac.blt (a b : Frac) : Bool := a.num * b.den < b.num * a.den

/-- `re.sub(r'[^\w\s]', '', part).strip()` -/
def cleanPart (p : Chars) : Chars :=
  stripChars (p.filter (fun c => isWordChar c ∨ isSpaceChar c))

/-- The sequential separator splitting of `_parse_status_list` /
`_parse_dynamic_status_list` (each separator applied to every piece in
turn, then `strip`). -/
def splitSeparators (seps : List String) (text : Chars) : List Chars :=
  seps.foldl (fun parts sep => parts.flatMap (fun p => (splitOnSub sep.data p).map stripChars))
    [stripChars text]

/-- `_calculate_status_match_score`: exact 1.0, containment 0.8, shared-word
0.6 + overlap/total·0.2, shared-character |common|/max·0.4, else 0. -/
def calculate_status_match_score (term name : Chars) : Frac :=
  if term = name then fr 1 1
  else if containsSub name term ∨ containsSub term name then fr 8 10
  else
    let tw := dedupKeepFirst (splitWs term)
    let nw := dedupKeepFirst (splitWs name)
    let overlap := (tw.filter (fun w => w ∈ nw)).length
    if overlap ≠ 0 then
      let total := (dedupKeepFirst (tw ++ nw)).length
      Frac.add (fr 6 10) (Frac.mul (fr overlap total) (fr 2 10))
    else
      let common := ((dedupKeepFirst term).filter (fun c => c ∈ name)).length
      if common ≠ 0 then Frac.mul (fr common (max term.length name.length)) (fr 4 10)
      else fr 0 1

/-- `_parse_status_list` (used for priorities): split on separators, clean,
skip parts shorter than 2; exact match, else best containment score with a
0.6 threshold (partial matching only for parts of length ≥ 3). -/
def parse_status_list (text : Chars) (mapping : AListM) : AListM :=
  let parts := splitSeparators [",", " and ", " or ", "&", "+"] text
  parts.foldl (fun acc part0 =>
    let part := cleanPart part0
    if part.isEmpty ∨ part.length < 2 then acc
    else if amemC mapping part then aset acc (String.mk part) (agetC mapping part)
    else
      let best := mapping.foldl (fun (b : Frac × Option (String × Int)) p =>
        if part.length ≥ 3 ∧ (containsSub part p.1.data ∨ containsSub p.1.data part) then
          let score : Frac :=
            if part = p.1.data then fr 1 1
            else if containsSub p.1.data part then fr part.length p.1.data.length
            else if containsSub part p.1.data then fr p.1.data.length part.length
            else fr 0 1
          if Frac.blt b.1 score ∧ Frac.blt (fr 6 10) score then (score, some p) else b
        else b) (fr 0 1, none)
      match best.2 with
      | some p => aset acc p.1 p.2
      | none => acc) []

/-- `_parse_dynamic_status_list`: like `parse_status_list` but with `;` as an
extra separator and `_calculate_status_match_score` with a 0.7 threshold;
the stable descending sort of the source keeps the first entry of maximal
score, embedded as a strict-improvement fold. -/
def parse_dynamic_status_list (text : Chars) (mapping : AListM) : AListM :=
  let parts := splitSeparators [",", " and ", " or ", "&", "+", ";"] text
  parts.foldl (fun acc part0 =>
    let part := cleanPart part0
    if part.isEmpty ∨ part.length < 2 then acc
    else
      let pl := lowerChars part
      if amemC mapping pl then aset acc (String.mk pl) (agetC mapping pl)
      else if part.length ≥ 3 then
        let best := mapping.foldl (fun (b : Frac × Option (String × Int)) p =>
          let score := calculate_status_match_score pl p.1.data
          if Frac.blt (fr 7 10) score ∧ Frac.blt b.1 score then (score, some p) else b)
          (fr 0 1, none)
        match best.2 with
        | some p => aset acc p.1 p.2
        | none => acc
      else acc) []

/-! ### Status patterns of `resolve_status_references` and its helpers. -/

/-- `(?:not|except|excluding|without)` -/
def negAlt : RE := ralt [rlit "not", rlit "except", rlit "excluding", rlit "without"]

/-- `(?:\s|$)` -/
def spOrEnd : RE := RE.alt (RE.cls .space) RE.eos

/-- `([a-z\s,]+?)` -/
def lazyLscGrp : RE := RE.grp (rplusL (RE.cls .lowerSpaceComma))

/-- `(?:not|except|excluding|without)\s+(?:status\s+)?(?:is\s+)?([a-z\s,]+?)(?:\s|$)` -/
def pat_sx1 : RE :=
  rcat [negAlt, sp1, RE.opt (rcat [rlit "status", sp1]) false,
        RE.opt (rcat [rlit "is", sp1]) false, lazyLscGrp, spOrEnd]

/-- `status\s+(?:is\s+)?(?:not|except|excluding)\s+([a-z\s,]+?)(?:\s|$)` -/
def pat_sx2 : RE :=
  rcat [rlit "status", sp1, RE.opt (rcat [rlit "is", sp1]) false,
        ralt [rlit "not", rlit "except", rlit "excluding"], sp1, lazyLscGrp, spOrEnd]

/-- `(?:all|show|get)\s+(?:requests?|tickets?)\s+(?:not|except|excluding)\s+([a-z\s,]+?)(?:\s|$)` -/
def pat_sx3 : RE :=
  rcat [ralt [rlit "all", rlit "show", rlit "get"], sp1,
        ralt [RE.seq (rlit "request") (RE.opt (rlit "s") false),
              RE.seq (rlit "ticket") (RE.opt (rlit "s") false)], sp1,
        ralt [rlit "not", rlit "except", rlit "excluding"], sp1, lazyLscGrp, spOrEnd]

def status_exclusion_pats : List RE := [pat_sx1, pat_sx2, pat_sx3]

/-- `(?:\s+(?:and|or)\s+[a-z\s,]{3,}?)*` -/
def conjTail : RE :=
  RE.star (rcat [sp1, ralt [rlit "and", rlit "or"], sp1,
                 rmin (RE.cls .lowerSpaceComma) 3 true]) false

/-- `status\s+(?:is|are|equals?)\s+([a-z\s]{2,}?)(?=\s+and\s+status|\s+or\s+status|$)` -/
def pat_si0 : RE :=
  rcat [rlit "status", sp1, ralt [rlit "is", rlit "are", reEquals], sp1,
        RE.grp (rmin (RE.cls .lowerSpace) 2 true),
        RE.look (ralt [rcat [sp1, rlit "and", sp1, rlit "status"],
                       rcat [sp1, rlit "or", sp1, rlit "status"], RE.eos])]

/-- `status\s+(?:is|are|in|includes?)\s+([a-z\s,]{3,}?)(?:\s+(?:and|or)\s+[a-z\s,]{3,}?)*` -/
def pat_si1 : RE :=
  rcat [rlit "status", sp1,
        ralt [rlit "is", rlit "are", rlit "in", RE.seq (rlit "include") (RE.opt (rlit "s") false)],
        sp1, RE.grp (rmin (RE.cls .lowerSpaceComma) 3 true), conjTail]

/-- `(?:with|having)\s+status\s+([a-z\s,]{3,}?)(?:\s+(?:and|or)\s+[a-z\s,]{3,}?)*` -/
def pat_si2 : RE :=
  rcat [ralt [rlit "with", rlit "having"], sp1, rlit "status", sp1,
        RE.grp (rmin (RE.cls .lowerSpaceComma) 3 true), conjTail]

/-- `(?:where|when)\s+status\s+(?:is|are|in)\s+([a-z\s,]{3,}?)(?:\s+(?:and|or)\s+[a-z\s,]{3,}?)*` -/
def pat_si3 : RE :=
  rcat [ralt [rlit "where", rlit "when"], sp1, rlit "status", sp1,
        ralt [rlit "is", rlit "are", rlit "in"], sp1,
        RE.grp (rmin (RE.cls .lowerSpaceComma) 3 true), conjTail]

/-- `status\s+(?:is|are|in)\s+([a-z\s,]{3,}(?:,\s*[a-z\s]{2,})*)` -/
def pat_si4 : RE :=
  rcat [rlit "status", sp1, ralt [rlit "is", rlit "are", rlit "in"], sp1,
        RE.grp (RE.seq (rmin (RE.cls .lowerSpaceComma) 3 false)
          (RE.star (rcat [rlit ",", RE.star (RE.cls .space) false,
                          rmin (RE.cls .lowerSpace) 2 false]) false))]

/-- `(?:requests?|tickets?)\s+(?:with|having|where)\s+status\s+([a-z\s,]{3,})` -/
def pat_si5 : RE :=
  rcat [ralt [RE.seq (rlit "request") (RE.opt (rlit "s") false),
              RE.seq (rlit "ticket") (RE.opt (rlit "s") false)], sp1,
        ralt [rlit "with", rlit "having", rlit "where"], sp1, rlit "status", sp1,
        RE.grp (rmin (RE.cls .lowerSpaceComma) 3 false)]

def status_inclusion_pats : List RE := [pat_si0, pat_si1, pat_si2, pat_si3, pat_si4, pat_si5]

/-- `status\s+(?:is|are|equals?)\s+([a-z\s]+?)(?=\s+and\s+|$|\s+or\s+)` -/
def pat_mc : RE :=
  rcat [rlit "status", sp1, ralt [rlit "is", rlit "are", reEquals], sp1,
        RE.grp (rplusL (RE.cls .lowerSpace)),
        RE.look (ralt [rcat [sp1, rlit "and", sp1], RE.eos, rcat [sp1, rlit "or", sp1]])]

/-- `_find_multiple_status_clauses`: every `status is X` clause, resolved
exactly or by best score above 0.5 (the id must be truthy, i.e. non-zero). -/
def find_multiple_status_clauses (prompt : String) (mapping : AListM) : AListM :=
  let pl := lowerChars prompt.data
  (reFindall pat_mc pl).foldl (fun acc m =>
    let term := stripChars m
    let matched : Option (String × Int) :=
      if amemC mapping term then afindC mapping term
      else
        (mapping.foldl (fun (b : Frac × Option (String × Int)) p =>
          let score := calculate_status_match_score term p.1.data
          if Frac.blt b.1 score ∧ Frac.blt (fr 5 10) score then (score, some p) else b)
          (fr 0 1, none)).2
    match matched with
    | some p => if p.2 ≠ 0 then aset acc p.1 p.2 else acc
    | none => acc) []

/-- The `status_variations` table of `_find_all_status_mentions`,
in source order. -/
def status_variations : List (String × List String) :=
  [("open", ["opened", "new", "active"]),
   ("closed", ["close", "completed", "done", "finished"]),
   ("pending", ["waiting", "hold", "on hold"]),
   ("resolved", ["fixed", "solved", "complete"]),
   ("in progress", ["progress", "working", "ongoing", "processing"]),
   ("testing", ["test", "qa", "verification"]),
   ("cancelled", ["canceled", "abort", "aborted"]),
   ("rejected", ["reject", "denied", "declined"])]

/-- `_find_all_status_mentions`: direct substring, multi-word / single-word
word-boundary matches of every status name, then the variation table. -/
def find_all_status_mentions (prompt : String) (mapping : AListM) : AListM :=
  let pl := lowerChars prompt.data
  let found := mapping.foldl (fun acc p =>
    let name := p.1.data
    if containsSub pl name then aset acc p.1 p.2
    else
      let ws := splitWs name
      if ws.length > 1 then
        if reTest (wordSeqRE (ws.map String.mk)) pl then aset acc p.1 p.2 else acc
      else
        match ws with
        | [w] => if w.length > 3 ∧ reTest (wordRE (String.mk w)) pl then aset acc p.1 p.2 else acc
        | _ => acc) []
  status_variations.foldl (fun acc bv =>
    let matching := mapping.find? (fun p =>
      containsSub p.1.data bv.1.data ∨ bv.2.any (fun v => containsSub p.1.data v.data))
    match matching with
    | some p =>
      if amem acc p.1 then acc
      else
        match bv.2.find? (fun v => reTest (wordRE v) pl) with
        | some _ => aset acc p.1 p.2
        | none => acc
    | none => acc) found

/-- `_detect_implicit_status_patterns`: time-based (first hit only),
action-based, completion-based implications, then the default-active
fallback guarded by the absence of `all`/`every`/`any`. -/
def detect_implicit_status_patterns (prompt : String) (mapping : AListM) : AListM :=
  let pl := lowerChars prompt.data
  let anySub (ts : List String) : Bool := ts.any (fun t => containsSub pl t.data)
  let nameHas (p : String × Int) (ts : List String) : Bool :=
    ts.any (fun t => containsSub (lowerChars p.1.data) t.data)
  let acc : AListM := []
  let acc :=
    if anySub ["recent", "new", "latest", "today", "yesterday"] then
      match mapping.find? (fun p => nameHas p ["open", "new"]) with
      | some p => aset acc p.1 p.2
      | none => acc
    else acc
  let acc :=
    if anySub ["fix", "solve", "work on", "assign"] then
      mapping.foldl (fun a p => if nameHas p ["open", "progress"] then aset a p.1 p.2 else a) acc
    else acc
  let acc :=
    if anySub ["done", "complete", "finish", "close"] then
      mapping.foldl (fun a p => if nameHas p ["resolved", "closed", "complete"] then aset a p.1 p.2 else a) acc
    else acc
  if acc.isEmpty ∧ ¬ anySub ["all", "every", "any"] then
    mapping.foldl (fun a p => if nameHas p ["open", "progress"] then aset a p.1 p.2 else a) acc
  else acc

/-- `\bstatus\s+(?:is|are|in|equals?)` -/
def pat_sr1 : RE := rcat [RE.bow, rlit "status", sp1, ralt [rlit "is", rlit "are", rlit "in", reEquals]]

/-- `(?:with|having)\s+status` -/
def pat_sr2 : RE := rcat [ralt [rlit "with", rlit "having"], sp1, rlit "status"]

/-- `(?:where|when)\s+status` -/
def pat_sr3 : RE := rcat [ralt [rlit "where", rlit "when"], sp1, rlit "status"]

/-- `\bstatus\s*[:=]` -/
def pat_sr4 : RE := rcat [RE.bow, rlit "status", RE.star (RE.cls .space) false, RE.cls .colonEq]

/-- `\b<field>\s+(?:is|are|in|equals?)` for the non-status fields of
`_is_status_related_query`. -/
def mkOtherFieldPat (f : String) : RE :=
  rcat [RE.bow, rlit f, sp1, ralt [rlit "is", rlit "are", rlit "in", reEquals]]

/-- `_is_status_related_query`. -/
def is_status_related_query (prompt : String) : Bool :=
  let pl := lowerChars prompt.data
  if [pat_sr1, pat_sr2, pat_sr3, pat_sr4].any (fun r => reTest r pl) then true
  else if (["priority", "urgency", "category", "assignee", "requester"].map mkOtherFieldPat).any
      (fun r => reTest r pl) then false
  else true

/-- `_prioritize_explicit_status_mentions`: word-boundary mention counts per
status name; if any name is mentioned explicitly, keep exactly the detected
statuses among them, else cap a detection of more than 5 at the first 3. -/
def prioritize_explicit_status_mentions (prompt : String) (detected mapping : AListM) : AListM :=
  let pl := lowerChars prompt.data
  let explicit := mapping.foldl (fun (acc : AListM) p =>
    let n := (reFindall (wordRE p.1) pl).length
    if n > 0 then acc ++ [(p.1, (n : Int))] else acc) []
  if ¬ explicit.isEmpty then
    explicit.foldl (fun acc p =>
      match detected.find? (fun q => q.1 = p.1) with
      | some q => aset acc q.1 q.2
      | none => acc) []
  else if detected.length > 5 then detected.take 3
  else detected

/-- `MultiEndpointAgent.resolve_status_references` (the live status mapping
of `_fetch_dynamic_status_mapping` is a parameter; an empty mapping is the
source's early-out for a failed fetch). -/
def resolve_status_references (prompt : String) (status_mapping : AListM) : FilterResult :=
  if status_mapping.isEmpty then ⟨[], [], "in"⟩
  else
    let pl := lowerChars prompt.data
    let excluded := status_exclusion_pats.foldl (fun acc pat =>
      (reFindall pat pl).foldl (fun a m => aupdate a (parse_dynamic_status_list m status_mapping)) acc) []
    let included := aupdate [] (find_multiple_status_clauses prompt status_mapping)
    let included := aupdate included (find_all_status_mentions prompt status_mapping)
    let anySub (ts : List String) : Bool := ts.any (fun t => containsSub pl t.data)
    let nameHas (p : String × Int) (ts : List String) : Bool :=
      ts.any (fun t => containsSub (lowerChars p.1.data) t.data)
    let included :=
      if anySub ["active", "working"] ∧ containsSub pl "request".data then
        status_mapping.foldl (fun a p => if nameHas p ["open", "progress"] then aset a p.1 p.2 else a) included
      else if anySub ["unresolved"] ∧ containsSub pl "request".data then
        status_mapping.foldl (fun a p =>
          if ¬ nameHas p ["closed", "resolved", "cancelled"] then aset a p.1 p.2 else a) included
      else if anySub ["completed", "finished"] ∧ containsSub pl "request".data then
        status_mapping.foldl (fun a p => if nameHas p ["resolved", "closed"] then aset a p.1 p.2 else a) included
      else included
    let included := status_inclusion_pats.foldl (fun acc pat =>
      (reFindall pat pl).foldl (fun a m => aupdate a (parse_dynamic_status_list m status_mapping)) acc) included
    let included :=
      if included.isEmpty then
        if is_status_related_query prompt then
          aupdate included (detect_implicit_status_patterns prompt status_mapping)
        else included
      else included
    let finalIncluded := prioritize_explicit_status_mentions prompt included status_mapping
    ⟨finalIncluded, excluded,
     if ¬ excluded.isEmpty ∧ finalIncluded.isEmpty then "not_in" else "in"⟩

/-! ### Priority resolver (`resolve_priority_references`). -/

/-- The hardcoded priority table of `resolve_priority_references`. -/
def priority_mapping : AListM :=
  [("low", 1), ("very low", 1), ("medium", 2), ("normal", 2),
   ("high", 3), ("urgent", 4), ("critical", 4), ("very high", 4)]

/-- `(?:not|except|excluding|without)\s+(?:priority\s+)?(?:is\s+)?([a-z\s,]+?)(?:\s|$)` -/
def pat_px1 : RE :=
  rcat [negAlt, sp1, RE.opt (rcat [rlit "priority", sp1]) false,
        RE.opt (rcat [rlit "is", sp1]) false, lazyLscGrp, spOrEnd]

/-- `priority\s+(?:is\s+)?(?:not|except|excluding)\s+([a-z\s,]+?)(?:\s|$)` -/
def pat_px2 : RE :=
  rcat [rlit "priority", sp1, RE.opt (rcat [rlit "is", sp1]) false,
        ralt [rlit "not", rlit "except", rlit "excluding"], sp1, lazyLscGrp, spOrEnd]

/-- `priority\s+(?:is|are|in|includes?)\s+([a-z\s,]+?)(?:\s+(?:and|or)\s+(?!priority)[a-z\s,]+?)*` -/
def pat_pi1 : RE :=
  rcat [rlit "priority", sp1,
        ralt [rlit "is", rlit "are", rlit "in", RE.seq (rlit "include") (RE.opt (rlit "s") false)],
        sp1, lazyLscGrp,
        RE.star (rcat [sp1, ralt [rlit "and", rlit "or"], sp1, RE.nlook (rlit "priority"),
                       rplusL (RE.cls .lowerSpaceComma)]) false]

/-- `priority\s+(?:is|are|equals?)\s+([a-z\s,]+?)(?:\s+and\s+(?!priority)[a-z\s,]+?)*` -/
def pat_pi2 : RE :=
  rcat [rlit "priority", sp1, ralt [rlit "is", rlit "are", reEquals], sp1, lazyLscGrp,
        RE.star (rcat [sp1, rlit "and", sp1, RE.nlook (rlit "priority"),
                       rplusL (RE.cls .lowerSpaceComma)]) false]

/-- `(?:with|having)\s+priority\s+([a-z\s,]+?)(?:\s+(?:and|or)\s+[a-z\s,]+?)*` -/
def pat_pi3 : RE :=
  rcat [ralt [rlit "with", rlit "having"], sp1, rlit "priority", sp1, lazyLscGrp,
        RE.star (rcat [sp1, ralt [rlit "and", rlit "or"], sp1,
                       rplusL (RE.cls .lowerSpaceComma)]) false]

/-- `((?:high|medium|low|urgent|critical))\s+priority` -/
def pat_pi4 : RE :=
  rcat [RE.grp (ralt [rlit "high", rlit "medium", rlit "low", rlit "urgent", rlit "critical"]),
        sp1, rlit "priority"]

/-- `priority\s+(?:is|are|equals?)\s+([a-z\s,]+?)(?=\s+and\s+(?:status|urgency|category|assignee|requester)|$)` -/
def pat_pi5 : RE :=
  rcat [rlit "priority", sp1, ralt [rlit "is", rlit "are", reEquals], sp1, lazyLscGrp,
        RE.look (RE.alt
          (rcat [sp1, rlit "and", sp1,
                 ralt [rlit "status", rlit "urgency", rlit "category", rlit "assignee", rlit "requester"]])
          RE.eos)]

def priority_exclusion_pats : List RE := [pat_px1, pat_px2]

def priority_inclusion_pats : List RE := [pat_pi1, pat_pi2, pat_pi3, pat_pi4, pat_pi5]

/-- `MultiEndpointAgent.resolve_priority_references`. -/
def resolve_priority_references (prompt : String) : FilterResult :=
  let pl := lowerChars prompt.data
  let excluded := priority_exclusion_pats.foldl (fun acc pat =>
    (reFindall pat pl).foldl (fun a m => aupdate a (parse_status_list m priority_mapping)) acc) []
  let included := priority_inclusion_pats.foldl (fun acc pat =>
    (reFindall pat pl).foldl (fun a m => aupdate a (parse_status_list m priority_mapping)) acc) []
  ⟨included, excluded,
   if ¬ excluded.isEmpty ∧ included.isEmpty then "not_in" else "in"⟩

/-! ### Text search, business-logic filters, assembly
(`extract_text_search`, `_add_multi_value_filter`,
`_add_business_logic_filters`, `_validate_filter_values`,
`build_request_qualification`). -/

/-- `(?:contains|has|includes|with)` -/
def tVerbAlt : RE := ralt [rlit "contains", rlit "has", rlit "includes", rlit "with"]

/-- `["\x27]([^"\x27]+)["\x27]` -/
def quotedGrp : RE :=
  rcat [RE.cls .quoteC, RE.grp (rplus (RE.cls .notQuote)), RE.cls .quoteC]

/-- The three patterns per field of `extract_text_search`
(quoted, bare word, `is`/`equals`). -/
def mkTextPats (field : RE) : List RE :=
  [rcat [field, sp1, tVerbAlt, sp1, quotedGrp],
   rcat [field, sp1, tVerbAlt, sp1, wgrp],
   rcat [field, sp1, ralt [rlit "is", reEquals], sp1, wgrp]]

def text_field_patterns : List (String × List RE) :=
  [("subject", mkTextPats (rlit "subject")),
   ("description", mkTextPats (rlit "description")),
   ("name", mkTextPats (ralt [rlit "name", rlit "title"]))]

/-- The general text patterns of `MultiEndpointAgent.extract_text_search`. -/
def general_text_pats : List RE :=
  [rcat [rlit "contains", sp1, quotedGrp], rcat [rlit "contains", sp1, wgrp],
   rcat [rlit "having", sp1, quotedGrp], rcat [rlit "having", sp1, wgrp],
   rcat [rlit "includes", sp1, quotedGrp], rcat [rlit "includes", sp1, wgrp]]

def multi_skip_terms : List String :=
  ["unassigned", "assigned", "technician", "status", "priority", "urgency"]

def generalTextLoop (pl : Chars) : List (String × String) :=
  go general_text_pats
where
  go : List RE → List (String × String)
    | [] => []
    | p :: ps =>
      match reSearchGrp p pl with
      | some t => if multi_skip_terms.any (fun s => s.data = t) then go ps
                  else [("subject", String.mk t)]
      | none => go ps

/-- `MultiEndpointAgent.extract_text_search`: field-specific patterns first
(first matching pattern per field), then the general fallback loop. -/
def extract_text_search (prompt : String) : List (String × String) :=
  let pl := lowerChars prompt.data
  let ts := text_field_patterns.foldl (fun acc fp =>
    match fp.2.findSome? (fun p => reSearchGrp p pl) with
    | some t => acc ++ [(fp.1, String.mk t)]
    | none => acc) []
  if ts.isEmpty then generalTextLoop pl else ts

/-- `_add_multi_value_filter`: the leaves the call appends to `quals`
(an `in` leaf for inclusions, a `not_in` leaf for exclusions). -/
def add_multi_value_filter (fr : FilterResult) (field_key : String) : List Qual :=
  (if ¬ fr.included.isEmpty then
     [relLeaf field_key "in" (QVal.listLong (avalues fr.included))] else []) ++
  (if ¬ fr.excluded.isEmpty then
     [relLeaf field_key "not_in" (QVal.listLong (avalues fr.excluded))] else [])

/-- `_add_business_logic_filters`: VIP, escalation and recency leaves. -/
def add_business_logic_filters (prompt : String) : List Qual :=
  let pl := lowerChars prompt.data
  let anySub (ts : List String) : Bool := ts.any (fun t => containsSub pl t.data)
  (if anySub ["vip", "important", "critical customer"] then
     [relLeaf "request.vipRequest" "equal" (QVal.boolV true)] else []) ++
  (if anySub ["escalated", "overdue", "sla violation"] then
     [relLeaf "request.slaViolated" "equal" (QVal.boolV true)] else []) ++
  (if anySub ["recent", "today", "this week"] then
     let vu : Int × String :=
       if containsSub pl "today".data then (1, "days")
       else if containsSub pl "this week".data then (7, "days")
       else (3, "days")
     [relVarLeaf "created_date" "within_last" (QVal.duration vu.1 vu.2)] else [])

/-- A Python runtime value inside a filter's value list
(floats embedded as exact rationals). -/
inductive PyVal where
  | intV (n : Int)
  | floatV (q : ℚ)
  | strV (s : String)
deriving DecidableEq, Repr

def PyVal.isNumeric : PyVal → Bool
  | .intV _ => true
  | .floatV _ => true
  | .strV _ => false

/-- `_validate_filter_values`: empty in, empty out; deduplicate keeping first
occurrences; a value set larger than 100 only prints a warning; any
non-numeric value empties the whole list. -/
def validate_filter_values (vs : List PyVal) : List PyVal :=
  if vs.isEmpty then []
  else
    let unique := dedupKeepFirst vs
    if unique.all PyVal.isNumeric then unique else []

def unwrapInts (vs : List PyVal) : List Int :=
  vs.filterMap (fun v => match v with | .intV n => some n | _ => none)

/-- The validation pass of `build_request_qualification` over one leaf: a
`ListLongValueRest` value list is replaced by its validated form.  The
value lists built by this agent hold ints only, so the `PyVal` wrapping
round-trips exactly. -/
def apply_validation (q : Qual) : Qual :=
  match q.value with
  | QVal.listLong vs =>
    { q with value := QVal.listLong (unwrapInts (validate_filter_values (vs.map PyVal.intV))) }
  | _ => q

/-- The three reference mappings `build_request_qualification` resolves
against (the source fetches them through its cache layer). -/
structure Mappings where
  userM : AListM
  urgencyM : AListM
  statusM : AListM
deriving DecidableEq, Repr

/-- The `is_general_query` phrase list of `build_request_qualification`. -/
def general_query_phrases : List String :=
  ["get all requests", "show all requests", "list all requests",
   "get all the request", "show all the request", "list all the request",
   "all requests", "all the request"]

/-- The keyword gate of the default-filter branch. -/
def fallback_keywords : List String :=
  ["priority", "status", "assignee", "subject", "urgent", "high", "low", "open", "closed"]

/-- The default closed-exclusion leaf (`CLOSED_STATUS_ID = 13`). -/
def default_closed_leaf : Qual := relLeaf "request.statusId" "not_in" (QVal.listLong [13])

/-- `MultiEndpointAgent.build_request_qualification`: resolve all references,
assemble the `Flat` qualification in source order (status, priority,
business logic, urgency, user, text), apply the general-query /
default-filter rules, then validate the value lists.  The source's
`_detect_conflicting_filters` call only prints diagnostics and is dropped. -/
def build_request_qualification (prompt : String) (m : Mappings) : Payload :=
  let user_refs := resolve_user_references prompt m.userM
  let urgency_refs := resolve_urgency_references prompt m.urgencyM
  let status_result := resolve_status_references prompt m.statusM
  let priority_result := resolve_priority_references prompt
  let text_searches := extract_text_search prompt
  let quals :=
    add_multi_value_filter status_result "request.statusId" ++
    add_multi_value_filter priority_result "request.priorityId" ++
    add_business_logic_filters prompt ++
    (if ¬ urgency_refs.isEmpty then
       [relLeaf "request.urgencyId" "in" (QVal.listLong (avalues urgency_refs))] else []) ++
    (if ¬ user_refs.isEmpty then
       [relLeaf "request.technicianId" "in" (QVal.listLong (avalues user_refs))] else []) ++
    text_searches.map (fun fs => relLeaf ("request." ++ fs.1) "contains" (QVal.str fs.2))
  let has_filters :=
    ¬ status_result.included.isEmpty ∨ ¬ status_result.excluded.isEmpty ∨
    ¬ priority_result.included.isEmpty ∨ ¬ priority_result.excluded.isEmpty ∨
    ¬ urgency_refs.isEmpty ∨ ¬ user_refs.isEmpty ∨ ¬ text_searches.isEmpty
  let pl := lowerChars prompt.data
  let is_general_query :=
    (general_query_phrases.any (fun t => containsSub pl t.data)) ∧ ¬ has_filters
  let quals :=
    if is_general_query then quals
    else if quals.isEmpty ∧ ¬ has_filters then
      if fallback_keywords.any (fun w => containsSub pl w.data) then
        quals ++ [default_closed_leaf]
      else quals
    else quals
  let quals := if ¬ quals.isEmpty then quals.map apply_validation else quals
  ⟨"FlatQualificationRest", quals⟩

/-! ## api_endpoint_server.py — the legacy `APIExecutor` extractors and
`build_advanced_qualification`.  Functions that call `datetime.now()` take
the current day as an explicit parameter `now` (an epoch day count). -/

/-- The `APIConfig.PRIORITY_MAPPING` table. -/
def config_priority_mapping : AListM :=
  [("low", 1), ("medium", 2), ("high", 3), ("urgent", 4)]

/-- `APIExecutor.extract_priority_filter`: substring scan over the config
priority table. -/
def extract_priority_filter (prompt : String) : List Int :=
  let pl := lowerChars prompt.data
  config_priority_mapping.foldl (fun acc p =>
    if containsSub pl p.1.data then acc ++ [p.2] else acc) []

def insertSortedInt (x : Int) : List Int → List Int
  | [] => [x]
  | y :: ys => if x ≤ y then x :: y :: ys else y :: insertSortedInt x ys

/-- `APIExecutor.extract_status_filter`: substring scan over the status
mapping; the source's `list(set(status_ids))` is embedded as an ascending
sorted deduplication (CPython's set iteration order for the small ids
involved). -/
def extract_status_filter (prompt : String) (status_mapping : AListM) : List Int :=
  if status_mapping.isEmpty then []
  else
    let pl := lowerChars prompt.data
    let ids := status_mapping.foldl (fun acc p =>
      if containsSub pl p.1.data then acc ++ [p.2] else acc) []
    (dedupKeepFirst ids).foldr insertSortedInt []

/-! ### `APIExecutor.extract_text_search` (the server variant). -/

def tsv_subj_q : RE := rcat [rlit "subject", sp1, tVerbAlt, sp1, quotedGrp]
def tsv_subj_w : RE := rcat [rlit "subject", sp1, tVerbAlt, sp1, wgrp]
def tsv_desc_q : RE := rcat [rlit "description", sp1, tVerbAlt, sp1, quotedGrp]
def tsv_desc_w : RE := rcat [rlit "description", sp1, tVerbAlt, sp1, wgrp]
def tsv_name_q : RE := rcat [ralt [rlit "name", rlit "title"], sp1, tVerbAlt, sp1, quotedGrp]
def tsv_name_w : RE := rcat [ralt [rlit "name", rlit "title"], sp1, tVerbAlt, sp1, wgrp]

def server_text_ops : List String := ["contains", "has", "includes", "with"]

def server_skip_terms : List String :=
  ["unassigned", "assigned", "technician", "status", "priority"]

/-- The fields of the server's `field_context_patterns`. -/
def ctx_fields : List String :=
  ["assignee", "technician", "group", "category", "requester", "impact", "urgency"]

/-- `rf'{field}\s+(?:contains|includes|in)\s+{re.escape(term)}'` -/
def mkCtxPat (f : String) (term : Chars) : RE :=
  rcat [rlit f, sp1, ralt [rlit "contains", rlit "includes", rlit "in"], sp1, RE.lit term]

/-- The general text patterns of the server variant (bare words only). -/
def server_general_pats : List RE :=
  [rcat [rlit "contains", sp1, wgrp], rcat [rlit "having", sp1, wgrp],
   rcat [rlit "includes", sp1, wgrp]]

def serverGeneralLoop (pl : Chars) : List RE → List (String × String)
  | [] => []
  | p :: ps =>
    match reSearchGrp p pl with
    | some t =>
      if server_skip_terms.any (fun s => s.data = t) ∨
         ctx_fields.any (fun f => reTest (mkCtxPat f t) pl) then
        serverGeneralLoop pl ps
      else [("subject", String.mk t)]
    | none => serverGeneralLoop pl ps

/-- One quoted/unquoted field block of the server `extract_text_search`
(the unquoted pattern is only tried when the field word and one of the
operator words occur in the prompt). -/
def serverFieldBlock (pl : Chars) (fieldKey : String) (fieldWords : List String)
    (patQ patW : RE) : List (String × String) :=
  match reSearchGrp patQ pl with
  | some t => [(fieldKey, String.mk t)]
  | none =>
    if (fieldWords.any (fun w => containsSub pl w.data)) ∧
       (server_text_ops.any (fun o => containsSub pl o.data)) then
      match reSearchGrp patW pl with
      | some t => [(fieldKey, String.mk t)]
      | none => []
    else []

/-- `APIExecutor.extract_text_search`. -/
def extract_text_search_server (prompt : String) : List (String × String) :=
  let pl := lowerChars prompt.data
  let ts :=
    serverFieldBlock pl "subject" ["subject"] tsv_subj_q tsv_subj_w ++
    serverFieldBlock pl "description" ["description"] tsv_desc_q tsv_desc_w ++
    serverFieldBlock pl "name" ["name", "title"] tsv_name_q tsv_name_w
  if ts.isEmpty then serverGeneralLoop pl server_general_pats else ts

/-! ### `APIExecutor.extract_date_filters`. -/

/-- Rendering of a day as a timestamp string: models the source's
`strftime('%Y-%m-%dT00:00:00Z')` of midnight of that day, abstracting the
calendar digits to the epoch-day number (injective in the day, which is
all the claims about this value use). -/
def strftimeDay (d : Int) : String := toString d ++ "T00:00:00Z"

def dateLeaf (d : Int) : Qual :=
  relLeaf "request.createdTime" "GreaterThanOrEqual" (QVal.time (strftimeDay d))

/-- `last\s+(\d+)\s+days?` -/
def pat_days : RE :=
  rcat [rlit "last", sp1, RE.grp (rplus (RE.cls .digit)), sp1, rlit "day",
        RE.opt (rlit "s") false]

/-- `APIExecutor.extract_date_filters` with `datetime.now()` passed as the
epoch day `now`. -/
def extract_date_filters (prompt : String) (now : Int) : List Qual :=
  let pl := lowerChars prompt.data
  let base :=
    if containsSub pl "today".data then [dateLeaf now]
    else if containsSub pl "yesterday".data then [dateLeaf (now - 1)]
    else if containsSub pl "last week".data ∨ containsSub pl "past week".data then
      [dateLeaf (now - 7)]
    else if containsSub pl "last month".data ∨ containsSub pl "past month".data then
      [dateLeaf (now - 30)]
    else []
  base ++
    (match reSearchGrp pat_days pl with
     | some d => [dateLeaf (now - (digitsToNat d : Int))]
     | none => [])

/-- The date cues `extract_date_filters` reacts to. -/
def has_date_cue (p : String) : Bool :=
  let pl := lowerChars p.data
  containsSub pl "today".data || containsSub pl "yesterday".data ||
  containsSub pl "last week".data || containsSub pl "past week".data ||
  containsSub pl "last month".data || containsSub pl "past month".data ||
  (reSearchGrp pat_days pl).isSome

/-! ### `APIExecutor.extract_assignment_filters`. -/

/-- `assignee\s+(?:contains|includes|in)\s+(\w+)` -/
def pat_a1 : RE :=
  rcat [rlit "assignee", sp1, ralt [rlit "contains", rlit "includes", rlit "in"], sp1, wgrp]

/-- `technician\s+(?:contains|includes|in)\s+(\w+)` -/
def pat_a2 : RE :=
  rcat [rlit "technician", sp1, ralt [rlit "contains", rlit "includes", rlit "in"], sp1, wgrp]

/-- `assigned\s+to\s+(\w+)` -/
def pat_a3 : RE := rcat [rlit "assigned", sp1, rlit "to", sp1, wgrp]

/-- `assignee\s+(?:is|=|equals?)\s+(\w+)` -/
def pat_a4 : RE :=
  rcat [rlit "assignee", sp1, ralt [rlit "is", rlit "=", reEquals], sp1, wgrp]

/-- The inline `assignee_mapping` table of `extract_assignment_filters`. -/
def assignee_mapping : AListM :=
  [("unassigned", 0), ("none", 0), ("null", 0), ("0", 0),
   ("1", 1), ("2", 2), ("3", 3), ("4", 4), ("5", 5)]

def simple_unassigned_patterns : List String :=
  ["get all unassigned", "show unassigned", "find unassigned",
   "not assigned", "no technician", "without technician"]

/-- `APIExecutor.extract_assignment_filters` (the user mapping the source
fetches through `get_user_mapping` is a parameter). -/
def extract_assignment_filters (prompt : String) (user_mapping : AListM) : List Qual :=
  let pl := lowerChars prompt.data
  match [pat_a1, pat_a2, pat_a3, pat_a4].findSome? (fun p => reSearchGrp p pl) with
  | some v =>
    let idOpt : Option Int :=
      if amemC assignee_mapping v then some (agetC assignee_mapping v)
      else if ¬ v.isEmpty ∧ v.all isDigitChar then some (digitsToNat v : Int)
      else
        let vl := lowerChars v
        match afindC user_mapping vl with
        | some p => some p.2
        | none =>
          match user_mapping.find? (fun p => containsSub p.1.data vl) with
          | some p => some p.2
          | none => none
    match idOpt with
    | some i => [relLeaf "request.technicianId" "in" (QVal.listLong [i])]
    | none => [relLeaf "request.requesterName" "contains" (QVal.str (String.mk v))]
  | none =>
    if simple_unassigned_patterns.any (fun t => containsSub pl t.data) then
      [unaryLeaf "request.technicianId" "is_null"]
    else if (containsSub pl "has technician".data ∨ containsSub pl "with technician".data) ∧
            ¬ containsSub pl "contains".data ∧ ¬ containsSub pl "includes".data then
      [unaryLeaf "request.technicianId" "is_not_null"]
    else []

/-! ### `APIExecutor.extract_tag_filters`. -/

/-- `(?:tagged?\s+with|has\s+tags?|with\s+tags?)\s+["\x27]([^"\x27]+)["\x27]` -/
def pat_tag1 : RE :=
  rcat [ralt [rcat [rlit "tagge", RE.opt (rlit "d") false, sp1, rlit "with"],
              rcat [rlit "has", sp1, rlit "tag", RE.opt (rlit "s") false],
              rcat [rlit "with", sp1, rlit "tag", RE.opt (rlit "s") false]],
        sp1, quotedGrp]

/-- `tags?\s+(?:contains?|includes?)\s+["\x27]([^"\x27]+)["\x27]` -/
def pat_tag2 : RE :=
  rcat [rlit "tag", RE.opt (rlit "s") false, sp1,
        ralt [RE.seq (rlit "contain") (RE.opt (rlit "s") false),
              RE.seq (rlit "include") (RE.opt (rlit "s") false)],
        sp1, quotedGrp]

/-- `APIExecutor.extract_tag_filters`. -/
def extract_tag_filters (prompt : String) : List Qual :=
  let pl := lowerChars prompt.data
  let ms := reFindall pat_tag1 pl
  (if ¬ ms.isEmpty then
     [relLeaf "request.tags" "All_Members_Exist" (QVal.listString (ms.map String.mk))]
   else []) ++
  (match reSearchGrp pat_tag2 pl with
   | some t => [relLeaf "request.tags" "Contains" (QVal.str (String.mk t))]
   | none => [])

/-! ### `APIExecutor.extract_general_field_filters`. -/

def general_field_mapping : List (String × String) :=
  [("assignee", "request.technicianId"), ("technician", "request.technicianId"),
   ("requester", "request.requesterId"), ("group", "request.groupId"),
   ("category", "request.categoryId"), ("impact", "request.impactId"),
   ("urgency", "request.urgencyId"), ("location", "request.locationId"),
   ("department", "request.departmentId")]

/-- `rf'{field}\s+(?:contains|includes|in)\s+(\w+)'` -/
def mkFieldPat1 (f : String) : RE :=
  rcat [rlit f, sp1, ralt [rlit "contains", rlit "includes", rlit "in"], sp1, wgrp]

/-- `rf'{field}\s+(?:is|=|equals?)\s+(\w+)'` -/
def mkFieldPat2 (f : String) : RE :=
  rcat [rlit f, sp1, ralt [rlit "is", rlit "=", reEquals], sp1, wgrp]

/-- The per-field pattern loop of `extract_general_field_filters`
(a match on an assignee/technician field `continue`s to the next pattern;
a numeric value gives an `in` leaf, a textual one a `contains` leaf). -/
def general_field_go (fm : String × String) (pl : Chars) : List RE → List Qual
  | [] => []
  | p :: ps =>
    match reSearchGrp p pl with
    | some v =>
      if fm.1 = "assignee" ∨ fm.1 = "technician" then general_field_go fm pl ps
      else if ¬ v.isEmpty ∧ v.all isDigitChar then
        [relLeaf fm.2 "in" (QVal.listLong [(digitsToNat v : Int)])]
      else [relLeaf fm.2 "contains" (QVal.str (String.mk v))]
    | none => general_field_go fm pl ps

/-- `APIExecutor.extract_general_field_filters`. -/
def extract_general_field_filters (prompt : String) : List Qual :=
  let pl := lowerChars prompt.data
  general_field_mapping.foldl (fun acc fm =>
    acc ++ general_field_go fm pl [mkFieldPat1 fm.1, mkFieldPat2 fm.1]) []

/-- `APIExecutor.build_advanced_qualification`: legacy assembly — status `in`
leaf or (when nothing else fired) the default closed exclusion, then
priority, text, date, assignment, tag and general-field leaves in source
order. -/
def build_advanced_qualification (prompt : String) (statusM userM : AListM)
    (now : Int) : Payload :=
  let priority_ids := extract_priority_filter prompt
  let status_ids := extract_status_filter prompt statusM
  let text_search := extract_text_search_server prompt
  let date_filters := extract_date_filters prompt now
  let assignment_filters := extract_assignment_filters prompt userM
  let tag_filters := extract_tag_filters prompt
  let general_field_filters := extract_general_field_filters prompt
  let statusQuals :=
    if ¬ status_ids.isEmpty then
      [relLeaf "request.statusId" "in" (QVal.listLong status_ids)]
    else
      let has_other_filters :=
        ¬ priority_ids.isEmpty ∨ ¬ text_search.isEmpty ∨ ¬ date_filters.isEmpty ∨
        ¬ assignment_filters.isEmpty ∨ ¬ tag_filters.isEmpty ∨
        ¬ general_field_filters.isEmpty
      if ¬ has_other_filters then [default_closed_leaf] else []
  let quals := statusQuals ++
    (if ¬ priority_ids.isEmpty then
       [relLeaf "request.priorityId" "in" (QVal.listLong priority_ids)] else []) ++
    text_search.map (fun fs => relLeaf ("request." ++ fs.1) "contains" (QVal.str fs.2)) ++
    date_filters ++ assignment_filters ++ tag_filters ++ general_field_filters
  ⟨"FlatQualificationRest", quals⟩

/-! ## local_intelligence_agent.py / llm_filter_generator.py -/

def aposChar : Char := Char.ofNat 39  -- the apostrophe

/-- `\b(?:unassigned|no\s+assignee|not\s+assigned)\b` -/
def pat_li_unassigned : RE :=
  rcat [RE.bow, ralt [rlit "unassigned", rcat [rlit "no", sp1, rlit "assignee"],
                      rcat [rlit "not", sp1, rlit "assigned"]], RE.bow]

/-- `\bassigned\s+to\s+([a-z]+)\b` -/
def pat_li_u1 : RE :=
  rcat [RE.bow, rlit "assigned", sp1, rlit "to", sp1,
        RE.grp (rplus (RE.cls .lowerAlpha)), RE.bow]

/-- `\b([a-z]+)\x27?s?\s+(?:tickets?|requests?)\b` -/
def pat_li_u2 : RE :=
  rcat [RE.bow, RE.grp (rplus (RE.cls .lowerAlpha)),
        RE.opt (RE.lit [aposChar]) false, RE.opt (rlit "s") false, sp1,
        ralt [RE.seq (rlit "ticket") (RE.opt (rlit "s") false),
              RE.seq (rlit "request") (RE.opt (rlit "s") false)], RE.bow]

/-- `\bby\s+([a-z]+)\b` -/
def pat_li_u3 : RE :=
  rcat [RE.bow, rlit "by", sp1, RE.grp (rplus (RE.cls .lowerAlpha)), RE.bow]

/-- The `is_blank` unary leaf the local-intelligence generator emits for
unassigned prompts: a dict with no `type` field (`qtype = ""`) and
`rightOperand: None`. -/
def li_blank_leaf : Qual :=
  { qtype := "", operandType := "PropertyOperandRest",
    key := "request.technicianId", operator := "is_blank", value := QVal.noneV }

def li_user_go (pl : Chars) (users : AListM) : List RE → List Qual
  | [] => []
  | p :: ps =>
    match reSearchGrp p pl with
    | some u =>
      match afindC users (lowerChars u) with
      | some q =>
        [{ qtype := "", operandType := "PropertyOperandRest",
           key := "request.technicianId", operator := "in",
           value := QVal.listLong [q.2] }]
      | none => []
    | none => li_user_go pl users ps

/-- `LocalIntelligenceAgent._detect_user_filters` (the caller passes the
lower-cased prompt; lower-casing here keeps the function total on raw
prompts). -/
def li_detect_user_filters (prompt : String) (users : AListM) : List Qual :=
  let pl := lowerChars prompt.data
  if reTest pat_li_unassigned pl then [li_blank_leaf]
  else li_user_go pl users [pat_li_u1, pat_li_u2, pat_li_u3]

/-- `LocalIntelligenceAgent.generate_filter_payload`: the whole detector
pipeline runs inside `try`; its outcome (the collected leaves, or the
exception message) is the parameter.  The `except` branch returns the empty
Flat qualification. -/
def li_generate_filter_payload (body : Except String (List Qual)) : Payload :=
  match body with
  | .ok qs => ⟨"FlatQualificationRest", qs⟩
  | .error _ => ⟨"FlatQualificationRest", []⟩

/-- `LLMFilterGenerator.generate_filter_payload`: with a configured model
endpoint the LLM path is tried and any exception falls through to the
rule-based generator; without one the rule-based generator runs directly. -/
def llm_generate_filter_payload (endpointConfigured : Bool)
    (llmResult : Except String Payload) (ruleBased : Payload) : Payload :=
  if endpointConfigured then
    match llmResult with
    | .ok p => p
    | .error _ => ruleBased
  else ruleBased

/-! ## Reference-data fetchers

`APIExecutor.get_status_mapping` and
`MultiEndpointAgent._fetch_dynamic_status_mapping`, parameterised by the
outcome of the HTTP call.  A record models one JSON item; `none` fields are
absent keys (`dict.get` returning `None`). -/

structure StatusRec where
  id : Option Int
  name : Option String
  systemName : Option String
deriving DecidableEq, Repr

/-- The recognised shapes of a 200 response body. -/
inductive RespShape where
  | bare (rs : List StatusRec)       -- a bare JSON array
  | objectList (rs : List StatusRec) -- `{objectList: [...]}`
  | content (rs : List StatusRec)    -- `{content: [...]}`
  | dataField (rs : List StatusRec)  -- `{data: [...]}`
  | plainDict (r : StatusRec)        -- any other dict
  | other                            -- not a list or dict
deriving DecidableEq, Repr

/-- Outcome of the server's status fetch. -/
inductive FetchOutcome where
  | noToken                       -- `get_access_token` returned nothing
  | ok (code : Nat) (shape : RespShape)
  | jsonError                     -- body failed to parse
  | exn                           -- any other exception
deriving DecidableEq, Repr

/-- Outcome of the multi-endpoint agent's status fetch (its token is
hard-coded, so there is no no-token case). -/
inductive DynFetchOutcome where
  | ok (code : Nat) (shape : RespShape)
  | netError                      -- requests.exceptions.RequestException
  | jsonError
  | exn
deriving DecidableEq, Repr

def lowerStr (s : String) : String := String.mk (lowerChars s.data)

/-- The `_get_fallback_status_mapping` table. -/
def fallback_status_mapping : AListM :=
  [("open", 9), ("in progress", 10), ("pending", 11), ("resolved", 12),
   ("closed", 13), ("testing1", 14)]

/-- The mapping-building loop of `get_status_mapping` (name and id must be
truthy; the system name is added when distinct). -/
def build_server_status_mapping (rs : List StatusRec) : AListM :=
  rs.foldl (fun acc r =>
    let status_name := lowerStr (r.name.getD "")
    let system_name := lowerStr (r.systemName.getD "")
    match r.id with
    | some i =>
      if status_name ≠ "" ∧ i ≠ 0 then
        let acc := aset acc status_name i
        if system_name ≠ "" ∧ system_name ≠ status_name then aset acc system_name i
        else acc
      else acc
    | none => acc) []

/-- `APIExecutor.get_status_mapping`: every failure path (no token, non-200,
unparsable body, unexpected shape, exception) ends in the fallback table.
(The `{data: [...]}` dict is not a shape this function recognises: it is
wrapped as a single id-less record, yielding the empty mapping.) -/
def get_status_mapping : FetchOutcome → AListM
  | .noToken => fallback_status_mapping
  | .jsonError => fallback_status_mapping
  | .exn => fallback_status_mapping
  | .ok code shape =>
    if code = 200 then
      match shape with
      | .bare rs => build_server_status_mapping rs
      | .objectList rs => build_server_status_mapping rs
      | .content rs => build_server_status_mapping rs
      | .dataField _ => build_server_status_mapping [⟨none, none, none⟩]
      | .plainDict r => build_server_status_mapping [r]
      | .other => fallback_status_mapping
    else fallback_status_mapping

/-- The mapping-building loop of `_fetch_dynamic_status_mapping`
(requires both `id` and `name`; lower-cases and strips the name). -/
def parse_dynamic_records (rs : List StatusRec) : AListM :=
  rs.foldl (fun acc r =>
    match r.id, r.name with
    | some i, some n => aset acc (String.mk (stripChars (lowerChars n.data))) i
    | _, _ => acc) []

/-- `MultiEndpointAgent._fetch_dynamic_status_mapping`: every failure path
(non-200, network error, unparsable body, exception) returns the empty
mapping — there is no fallback table here.  (A plain dict with `id` and
`name` is one record; any other plain dict is iterated by keys and yields
nothing.) -/
def fetch_dynamic_status_mapping : DynFetchOutcome → AListM
  | .ok code shape =>
    if code = 200 then
      match shape with
      | .bare rs => parse_dynamic_records rs
      | .objectList rs => parse_dynamic_records rs
      | .content rs => parse_dynamic_records rs
      | .dataField rs => parse_dynamic_records rs
      | .plainDict r =>
        if r.id.isSome ∧ r.name.isSome then parse_dynamic_records [r] else []
      | .other => []
    else []
  | .netError => []
  | .jsonError => []
  | .exn => []

/-- Failure outcomes of the server fetch. -/
def fetch_failed : FetchOutcome → Bool
  | .ok code _ => code ≠ 200
  | _ => true

/-- Failure outcomes of the multi-endpoint fetch. -/
def dyn_fetch_failed : DynFetchOutcome → Bool
  | .ok code _ => code ≠ 200
  | _ => true

/-! ### The multi-endpoint agent's user / urgency / service-catalog mapping
fetchers, parameterised by the outcome of `make_api_request`.  Each returns
the empty mapping on an error response (there is no fallback table). -/

structure UserSessionRec where
  name : String   -- `.get('name', '')`
  email : String  -- `.get('email', '')`
deriving DecidableEq, Repr

structure NamedRec where
  id : Option Int      -- `.get('id')`
  name : String        -- `.get('name', '')`
  systemName : String  -- `.get('systemName', '')`
deriving DecidableEq, Repr

structure CatalogRec where
  id : Option Int   -- `.get('id')`
  name : String     -- `.get('name', '')`
  subject : String  -- `.get('subject', '')`
deriving DecidableEq, Repr

/-- Outcome of `make_api_request` for the list-shaped mapping endpoints: a
response carrying an `error` key, a JSON list, or any other shape (whose
parse loop is skipped, leaving the mapping empty). -/
inductive MapResp (α : Type) where
  | err (msg : String)
  | okList (rs : List α)
  | okOther
deriving DecidableEq, Repr

/-- Outcome of `make_api_request('users')`: an `error` key, or a dict of
user-id keys (already through the source's `int(user_id)`) mapping to
session lists. -/
inductive UserMapResp where
  | err (msg : String)
  | okDict (users : List (Int × List UserSessionRec))
deriving DecidableEq, Repr

/-- Dicts whose values can be a stored `None` id (the urgency/catalog
system-name/subject branches store the id without a truthiness check). -/
abbrev AListO := List (String × Option Int)

/-- `d[k] = v` for Option-valued dicts. -/
def oset (d : AListO) (k : String) (v : Option Int) : AListO :=
  if d.any (fun p => p.1 = k) then d.map (fun p => if p.1 = k then (k, v) else p)
  else d ++ [(k, v)]

/-- `MultiEndpointAgent.get_user_mapping`: an error response yields the
empty mapping; otherwise the first session of each user contributes its
lower-cased name and (when distinct) email. -/
def get_user_mapping : UserMapResp → AListM
  | .err _ => []
  | .okDict users =>
    users.foldl (fun acc u =>
      match u.2 with
      | [] => acc
      | user_data :: _ =>
        let user_name := lowerStr user_data.name
        let email := lowerStr user_data.email
        let acc := if user_name ≠ "" then aset acc user_name u.1 else acc
        if email ≠ "" ∧ email ≠ user_name then aset acc email u.1 else acc) []

/-- `MultiEndpointAgent.get_urgency_mapping`: an error response yields the
empty mapping; a list response contributes each truthy name with a truthy
id, and each distinct system name (that branch stores the id without a
check, hence the `Option` values). -/
def get_urgency_mapping : MapResp NamedRec → AListO
  | .err _ => []
  | .okOther => []
  | .okList rs =>
    rs.foldl (fun acc r =>
      let name := lowerStr r.name
      let system_name := lowerStr r.systemName
      let acc :=
        match r.id with
        | some i => if name ≠ "" ∧ i ≠ 0 then oset acc name r.id else acc
        | none => acc
      if system_name ≠ "" ∧ system_name ≠ name then oset acc system_name r.id
      else acc) []

/-- `MultiEndpointAgent.get_service_catalog_mapping`: the same structure
over name and subject. -/
def get_service_catalog_mapping : MapResp CatalogRec → AListO
  | .err _ => []
  | .okOther => []
  | .okList rs =>
    rs.foldl (fun acc r =>
      let name := lowerStr r.name
      let subject := lowerStr r.subject
      let acc :=
        match r.id with
        | some i => if name ≠ "" ∧ i ≠ 0 then oset acc name r.id else acc
        | none => acc
      if subject ≠ "" ∧ subject ≠ name then oset acc subject r.id
      else acc) []

/-! ## Shared concrete fixtures for the theorems -/

/-- The standard five-status reference table (the default IDs the spec and
the sources document: open 9, in progress 10, pending 11, resolved 12,
closed 13). -/
def std_status_mapping : AListM :=
  [("open", 9), ("in progress", 10), ("pending", 11), ("resolved", 12), ("closed", 13)]

/-- A reference-data cache with the standard status table and no user or
urgency data (the state after a failed user/urgency fetch, whose
`get_*_mapping` returns the empty dict). -/
def std_mappings : Mappings := ⟨[], [], std_status_mapping⟩

/-- The closed operator set of the spec's data model. -/
def closed_operators : List String :=
  ["in", "not_in", "contains", "start_with", "end_with", "equal", "not_equal",
   "before", "after", "between", "within_last", "is_null", "is_not_null",
   "all_members_exist"]

/-- The operator set the code actually draws from: the spec's closed set
extended by the four strays the extractors emit. -/
def extended_operators : List String :=
  closed_operators ++ ["is_blank", "GreaterThanOrEqual", "All_Members_Exist", "Contains"]

/-- Operator/value-type compatibility of the wire format: list-membership
operators carry lists, string operators strings, time comparisons
timestamps, null checks no right operand. -/
def op_val_compatible (op : String) (v : QVal) : Bool :=
  match op, v with
  | "in", QVal.listLong _ => true
  | "not_in", QVal.listLong _ => true
  | "contains", QVal.str _ => true
  | "Contains", QVal.str _ => true
  | "All_Members_Exist", QVal.listString _ => true
  | "all_members_exist", QVal.listString _ => true
  | "GreaterThanOrEqual", QVal.time _ => true
  | "is_blank", QVal.noneV => true
  | "is_null", QVal.noneV => true
  | "is_not_null", QVal.noneV => true
  | "within_last", QVal.duration _ _ => true
  | "equal", QVal.boolV _ => true
  | "equal", QVal.varRef _ => true
  | _, _ => false

/-! ## Theorems for the claims -/

/-- C3 counterexample: compiling "requests except closed" does NOT yield the
single `{statusId, not_in, [13]}` leaf the claim states — the prompt-wide
inclusion scan (`_find_all_status_mentions`) also picks up "closed", so an
`in [13]` leaf is emitted first. -/
theorem C3_counterexample :
    (build_request_qualification "requests except closed" std_mappings).quals =
      [relLeaf "request.statusId" "in" (QVal.listLong [13]),
       relLeaf "request.statusId" "not_in" (QVal.listLong [13])] ∧
    (build_request_qualification "requests except closed" std_mappings).quals ≠
      [relLeaf "request.statusId" "not_in" (QVal.listLong [13])] := by
  decide

/-- C3 amended: against the standard status table, "requests except closed"
compiles to exactly two status leaves — `{statusId, in, [13]}` (from the
inclusion scan matching the mentioned status) followed by
`{statusId, not_in, [13]}` (from the negation cue) — while "requests with
status closed" compiles to the single leaf `{statusId, in, [13]}`. -/
theorem C3_negation_operator_leaves :
    (build_request_qualification "requests except closed" std_mappings).quals =
      [relLeaf "request.statusId" "in" (QVal.listLong [13]),
       relLeaf "request.statusId" "not_in" (QVal.listLong [13])] ∧
    (build_request_qualification "requests with status closed" std_mappings).quals =
      [relLeaf "request.statusId" "in" (QVal.listLong [13])] := by
  decide

/-- C4 counterexample: compiling the claim's literal prompt
"priority high and low" yields NO `priorityId` leaf at all — none of the
priority patterns matches without a copula (`is`/`are`), and the implicit
status defaults fire instead, giving a single `statusId in [9, 10]` leaf. -/
theorem C4_counterexample :
    (build_request_qualification "priority high and low" std_mappings).quals =
      [relLeaf "request.statusId" "in" (QVal.listLong [9, 10])] ∧
    (build_request_qualification "priority high and low" std_mappings).quals ≠
      [relLeaf "request.priorityId" "in" (QVal.listLong [3, 1])] := by
  decide

/-- C4 amended: with the copula phrasing the extractor's patterns recognise
("priority is high and low"), the standard priority table (high→3, low→1)
and no urgency reference data, the compiled qualification is exactly one
`Relational` leaf `priorityId in [3, 1]` — both IDs in one list-of-long
value, not two separate leaves. -/
theorem C4_multi_value_single_leaf :
    (build_request_qualification "priority is high and low" std_mappings).quals =
      [relLeaf "request.priorityId" "in" (QVal.listLong [3, 1])] := by
  decide

/-- C2 counterexample: "get all requests with priority" contains the bare
keyword "priority" and resolves no filter of any kind, yet the compiled
`quals` is empty — the general-query phrase "all requests" suppresses the
`statusId not_in [13]` fallback leaf. -/
theorem C2_counterexample :
    fallback_keywords.any
      (fun w => containsSub (lowerChars "get all requests with priority".data) w.data) = true ∧
    (resolve_status_references "get all requests with priority" std_status_mapping).included = [] ∧
    (resolve_status_references "get all requests with priority" std_status_mapping).excluded = [] ∧
    (resolve_priority_references "get all requests with priority").included = [] ∧
    (resolve_priority_references "get all requests with priority").excluded = [] ∧
    (build_request_qualification "get all requests with priority" std_mappings).quals = [] := by
  decide

/-- C8 counterexample: through the primary compiler
(`build_request_qualification`, the path `execute_request` uses), the
prompt "Get all unassigned requests" does NOT compile to the single
`technicianId is_null` unary leaf — the substring "assign" triggers the
implicit status defaults and the result is one `statusId in [9, 10]`
leaf. -/
theorem C8_counterexample :
    (build_request_qualification "Get all unassigned requests" std_mappings).quals =
      [relLeaf "request.statusId" "in" (QVal.listLong [9, 10])] ∧
    (build_request_qualification "Get all unassigned requests" std_mappings).quals ≠
      [unaryLeaf "request.technicianId" "is_null"] := by
  decide

/-- C8 amended: the legacy assignment extractor
(`extract_assignment_filters`) does yield exactly the one
`UnaryQualificationRest` `is_null` leaf on `request.technicianId` for
"Get all unassigned requests"; the primary multi-endpoint compiler instead
yields a single implicit `statusId in [9, 10]` leaf for the same prompt. -/
theorem C8_assignment_is_null_leaf :
    extract_assignment_filters "Get all unassigned requests" [] =
      [unaryLeaf "request.technicianId" "is_null"] ∧
    (build_request_qualification "Get all unassigned requests" std_mappings).quals =
      [relLeaf "request.statusId" "in" (QVal.listLong [9, 10])] := by
  decide

/-- C5 counterexample: the local-intelligence user extractor emits an
`is_blank` operator for "show unassigned tickets", and `is_blank` is not in
the spec's closed operator set. -/
theorem C5_counterexample :
    li_detect_user_filters "show unassigned tickets" [] = [li_blank_leaf] ∧
    li_blank_leaf.operator = "is_blank" ∧
    ("is_blank" ∈ closed_operators) = False := by
  decide

/-- C7 counterexample: the multi-endpoint agent's status fetch
(`_fetch_dynamic_status_mapping`, a cited reference-data path) returns the
EMPTY mapping on a network error — not the built-in default table the
claim states every category falls back to. -/
theorem C7_counterexample :
    fetch_dynamic_status_mapping DynFetchOutcome.netError = [] ∧
    fetch_dynamic_status_mapping DynFetchOutcome.netError ≠ fallback_status_mapping := by
  decide

/-- C9 counterexample: the compile path that includes the date extractor
(`build_advanced_qualification`) is not a function of (prompt, mappings)
alone — for "show requests created today" two different clock readings
give two different qualifications, because `extract_date_filters` embeds
`datetime.now()` into a `TimeValueRest`. -/
theorem C9_counterexample :
    build_advanced_qualification "show requests created today" std_status_mapping [] 100 ≠
    build_advanced_qualification "show requests created today" std_status_mapping [] 101 := by
  decide

/-- C1: for every prompt matching one of the general "all requests" phrases
from which no extractor resolves anything (no status, priority, urgency,
user, text or business-logic filter), the compiled qualification's `quals`
is exactly the empty list — no default closed-exclusion leaf is injected. -/
theorem C1_general_query_empty_quals (p : String) (m : Mappings)
    (hgen : general_query_phrases.any (fun t => containsSub (lowerChars p.data) t.data) = true)
    (hsi : (resolve_status_references p m.statusM).included = [])
    (hse : (resolve_status_references p m.statusM).excluded = [])
    (hpi : (resolve_priority_references p).included = [])
    (hpe : (resolve_priority_references p).excluded = [])
    (hu : resolve_urgency_references p m.urgencyM = [])
    (hr : resolve_user_references p m.userM = [])
    (ht : extract_text_search p = [])
    (hb : add_business_logic_filters p = []) :
    (build_request_qualification p m).quals = [] := by
  unfold build_request_qualification add_multi_value_filter
  simp [hsi, hse, hpi, hpe, hu, hr, ht, hb, hgen]

/-- C1 witness: "Get all requests" against the standard reference data. -/
theorem C1_general_query_empty_quals_witness :
    (build_request_qualification "Get all requests" std_mappings).quals = [] :=
  C1_general_query_empty_quals "Get all requests" std_mappings
    (by decide) (by decide) (by decide) (by decide) (by decide)
    (by decide) (by decide) (by decide) (by decide)

/-- C2 amended: the `statusId not_in [13]` fallback leaf is emitted for a
prompt that contains one of the bare filter keywords and resolves no filter
of any kind — provided the prompt is NOT phrased as a general "all
requests" query (that phrasing suppresses the fallback, see
`C2_counterexample`). -/
theorem C2_fallback_leaf (p : String) (m : Mappings)
    (hkw : fallback_keywords.any (fun w => containsSub (lowerChars p.data) w.data) = true)
    (hng : general_query_phrases.any (fun t => containsSub (lowerChars p.data) t.data) = false)
    (hsi : (resolve_status_references p m.statusM).included = [])
    (hse : (resolve_status_references p m.statusM).excluded = [])
    (hpi : (resolve_priority_references p).included = [])
    (hpe : (resolve_priority_references p).excluded = [])
    (hu : resolve_urgency_references p m.urgencyM = [])
    (hr : resolve_user_references p m.userM = [])
    (ht : extract_text_search p = [])
    (hb : add_business_logic_filters p = []) :
    (build_request_qualification p m).quals = [default_closed_leaf] := by
  unfold build_request_qualification add_multi_value_filter
  simp [hsi, hse, hpi, hpe, hu, hr, ht, hb, hkw, hng, apply_validation,
        default_closed_leaf, relLeaf, validate_filter_values, dedupKeepFirst,
        dedupKeepFirstAux, unwrapInts, PyVal.isNumeric]

/-- C2 witness: "requests with priority is foobar" — the bare keyword
"priority" is present, nothing resolves, the phrasing is not a general
query, and the fallback leaf is emitted. -/
theorem C2_fallback_leaf_witness :
    (build_request_qualification "requests with priority is foobar" std_mappings).quals =
      [default_closed_leaf] :=
  C2_fallback_leaf "requests with priority is foobar" std_mappings
    (by decide) (by decide) (by decide) (by decide) (by decide)
    (by decide) (by decide) (by decide) (by decide) (by decide)

/-! Helper lemmas for the operator-discipline theorem (C5). -/

lemma mem_date_filters_shape (p : String) (now : Int) (q : Qual)
    (h : q ∈ extract_date_filters p now) : ∃ d, q = dateLeaf d := by
  unfold extract_date_filters at h
  simp only [List.mem_append] at h
  rcases h with h | h
  · repeat' split at h
    all_goals first
      | (simp only [List.mem_singleton] at h; exact ⟨_, h⟩)
      | simp at h
  · split at h
    · simp only [List.mem_singleton] at h
      exact ⟨_, h⟩
    · simp at h

lemma mem_tag_filters_shape (p : String) (q : Qual)
    (h : q ∈ extract_tag_filters p) :
    (∃ ts, q = relLeaf "request.tags" "All_Members_Exist" (QVal.listString ts)) ∨
    (∃ t, q = relLeaf "request.tags" "Contains" (QVal.str t)) := by
  unfold extract_tag_filters at h
  simp only [List.mem_append] at h
  rcases h with h | h
  · split at h
    · simp only [List.mem_singleton] at h
      exact Or.inl ⟨_, h⟩
    · simp at h
  · split at h
    · simp only [List.mem_singleton] at h
      exact Or.inr ⟨_, h⟩
    · simp at h

lemma mem_li_user_go_shape (pl : Chars) (users : AListM) (pats : List RE) (q : Qual)
    (h : q ∈ li_user_go pl users pats) :
    ∃ n, q = { qtype := "", operandType := "PropertyOperandRest",
               key := "request.technicianId", operator := "in",
               value := QVal.listLong [n] } := by
  induction pats with
  | nil => simp [li_user_go] at h
  | cons hd tl ih =>
    unfold li_user_go at h
    split at h
    · split at h
      · simp only [List.mem_singleton] at h
        exact ⟨_, h⟩
      · simp at h
    · exact ih h

lemma mem_li_user_filters_shape (p : String) (users : AListM) (q : Qual)
    (h : q ∈ li_detect_user_filters p users) :
    q = li_blank_leaf ∨
    ∃ n, q = { qtype := "", operandType := "PropertyOperandRest",
               key := "request.technicianId", operator := "in",
               value := QVal.listLong [n] } := by
  by_cases hre : reTest pat_li_unassigned (lowerChars p.data) = true
  · left
    have : li_detect_user_filters p users = [li_blank_leaf] := by
      unfold li_detect_user_filters
      rw [if_pos hre]
    rw [this] at h
    simpa using h
  · right
    have : li_detect_user_filters p users =
        li_user_go (lowerChars p.data) users [pat_li_u1, pat_li_u2, pat_li_u3] := by
      unfold li_detect_user_filters
      rw [if_neg hre]
    rw [this] at h
    exact mem_li_user_go_shape _ _ _ _ h

/-- C5 amended: every leaf emitted by the cited extractors (date, tag,
local-intelligence user) draws its operator from the closed set EXTENDED by
the four strays the code actually uses (`is_blank`, `GreaterThanOrEqual`,
`All_Members_Exist`, `Contains`), and pairs it with a compatible value
type.  The claim's original closed set is refuted by `C5_counterexample`. -/
theorem C5_extended_operator_discipline (p : String) (now : Int) (users : AListM) :
    ∀ q ∈ extract_date_filters p now ++ extract_tag_filters p ++
          li_detect_user_filters p users,
      q.operator ∈ extended_operators ∧ op_val_compatible q.operator q.value = true := by
  intro q hq
  rcases List.mem_append.mp hq with hq' | hq'
  · rcases List.mem_append.mp hq' with hd | htag
    · obtain ⟨d, rfl⟩ := mem_date_filters_shape p now q hd
      exact ⟨show "GreaterThanOrEqual" ∈ extended_operators by decide, rfl⟩
    · rcases mem_tag_filters_shape p q htag with ⟨ts, rfl⟩ | ⟨t, rfl⟩
      · exact ⟨show "All_Members_Exist" ∈ extended_operators by decide, rfl⟩
      · exact ⟨show "Contains" ∈ extended_operators by decide, rfl⟩
  · rcases mem_li_user_filters_shape p users q hq' with rfl | ⟨n, rfl⟩
    · exact ⟨show "is_blank" ∈ extended_operators by decide, rfl⟩
    · exact ⟨show "in" ∈ extended_operators by decide, rfl⟩

/-- C5 witness: the `is_blank` leaf emitted for "show unassigned tickets" is
in the extended operator set with a compatible (absent) value. -/
theorem C5_extended_operator_discipline_witness :
    li_blank_leaf.operator ∈ extended_operators ∧
    op_val_compatible li_blank_leaf.operator li_blank_leaf.value = true :=
  C5_extended_operator_discipline "show unassigned tickets" 0 [] li_blank_leaf
    (by decide)

/-- C6: the compiler facades are total — the local-intelligence generator
returns a structurally valid `FlatQualificationRest` payload for every
outcome of its detector pipeline and degrades to the empty qualification
when that pipeline raises; the LLM facade never surfaces an LLM failure,
returning either the LLM's valid payload or the rule-based result. -/
theorem C6_facade_never_raises (body : Except String (List Qual)) :
    (∃ qs, li_generate_filter_payload body = ⟨"FlatQualificationRest", qs⟩) ∧
    (∀ e, body = Except.error e →
      li_generate_filter_payload body = ⟨"FlatQualificationRest", []⟩) ∧
    (∀ (cfg : Bool) (llm : Except String Payload) (rb : Payload),
      llm_generate_filter_payload cfg llm rb = rb ∨
      ∃ pay, llm = Except.ok pay ∧ llm_generate_filter_payload cfg llm rb = pay) := by
  refine ⟨?_, ?_, ?_⟩
  · cases body with
    | ok qs => exact ⟨qs, rfl⟩
    | error e => exact ⟨[], rfl⟩
  · intro e he
    subst he
    rfl
  · intro cfg llm rb
    cases cfg with
    | false => exact Or.inl rfl
    | true =>
      cases llm with
      | ok pay => exact Or.inr ⟨pay, rfl, rfl⟩
      | error e => exact Or.inl rfl

/-- C6 witness: a failing detector pipeline degrades to the empty Flat
qualification. -/
theorem C6_facade_never_raises_witness :
    li_generate_filter_payload (Except.error "resolution blew up") =
      ⟨"FlatQualificationRest", []⟩ :=
  (C6_facade_never_raises (Except.error "resolution blew up")).2.1 "resolution blew up" rfl

/-- C7 amended: on any failed fetch (no token, non-200, unparsable body,
exception) the server's `get_status_mapping` falls back to the built-in
default table — which also carries `testing1 = 14` beside the five statuses
the claim lists — and never propagates the failure; the multi-endpoint
agent's status fetch (`C7_counterexample`) and its user, urgency and
service-catalog fetches instead degrade to the EMPTY mapping on an error
response, also without propagating. -/
theorem C7_fallback_on_failure (o : FetchOutcome) (o₂ : DynFetchOutcome) :
    (fetch_failed o = true → get_status_mapping o = fallback_status_mapping) ∧
    (dyn_fetch_failed o₂ = true → fetch_dynamic_status_mapping o₂ = []) ∧
    (∀ e, get_user_mapping (UserMapResp.err e) = []) ∧
    (∀ e, get_urgency_mapping (MapResp.err e) = []) ∧
    (∀ e, get_service_catalog_mapping (MapResp.err e) = []) := by
  refine ⟨?_, ?_, fun e => rfl, fun e => rfl, fun e => rfl⟩
  · intro h
    cases o with
    | noToken => rfl
    | jsonError => rfl
    | exn => rfl
    | ok code shape =>
      have hc : ¬ code = 200 := by
        simpa [fetch_failed] using h
      simp [get_status_mapping, hc]
  · intro h
    cases o₂ with
    | netError => rfl
    | jsonError => rfl
    | exn => rfl
    | ok code shape =>
      have hc : ¬ code = 200 := by
        simpa [dyn_fetch_failed] using h
      simp [fetch_dynamic_status_mapping, hc]

/-- C7 witness: a missing auth token yields the default table on the server
path; a network error yields the empty mapping on the multi-endpoint status
path, and an error response the empty mapping on the user / urgency /
catalog paths. -/
theorem C7_fallback_on_failure_witness :
    get_status_mapping FetchOutcome.noToken = fallback_status_mapping ∧
    fetch_dynamic_status_mapping DynFetchOutcome.netError = [] ∧
    get_user_mapping (UserMapResp.err "connection refused") = [] ∧
    get_urgency_mapping (MapResp.err "connection refused") = [] ∧
    get_service_catalog_mapping (MapResp.err "connection refused") = [] :=
  ⟨(C7_fallback_on_failure FetchOutcome.noToken DynFetchOutcome.netError).1 rfl,
   (C7_fallback_on_failure FetchOutcome.noToken DynFetchOutcome.netError).2.1 rfl,
   (C7_fallback_on_failure FetchOutcome.noToken DynFetchOutcome.netError).2.2.1
     "connection refused",
   (C7_fallback_on_failure FetchOutcome.noToken DynFetchOutcome.netError).2.2.2.1
     "connection refused",
   (C7_fallback_on_failure FetchOutcome.noToken DynFetchOutcome.netError).2.2.2.2
     "connection refused"⟩

lemma date_filters_empty_of_no_cue (p : String) (t : Int)
    (h : has_date_cue p = false) : extract_date_filters p t = [] := by
  unfold has_date_cue at h
  simp only [Bool.or_eq_false_iff] at h
  obtain ⟨⟨⟨⟨⟨⟨h1, h2⟩, h3⟩, h4⟩, h5⟩, h6⟩, h7⟩ := h
  unfold extract_date_filters
  cases hm : reSearchGrp pat_days (lowerChars p.data) with
  | some d =>
    rw [hm] at h7
    simp at h7
  | none =>
    simp [h1, h2, h3, h4, h5, h6, hm]

/-- C9 amended: against unchanged mappings, `build_advanced_qualification`
compiles every prompt with no date cue (no `today`, `yesterday`,
`last`/`past week`/`month`, `last N days`) to identical output at any two
clock readings — it touches the clock only through `extract_date_filters`.
Prompts WITH a date cue embed the clock-derived date into the emitted
value, so recompiling across days can differ (`C9_counterexample`). -/
theorem C9_deterministic_without_date_cue (p : String) (statusM userM : AListM)
    (t t' : Int) (h : has_date_cue p = false) :
    build_advanced_qualification p statusM userM t =
    build_advanced_qualification p statusM userM t' := by
  unfold build_advanced_qualification
  rw [date_filters_empty_of_no_cue p t h, date_filters_empty_of_no_cue p t' h]

/-- C9 witness: a cue-free prompt compiles identically on two different
days. -/
theorem C9_deterministic_without_date_cue_witness :
    build_advanced_qualification "show open requests" std_status_mapping [] 0 =
    build_advanced_qualification "show open requests" std_status_mapping [] 5 :=
  C9_deterministic_without_date_cue "show open requests" std_status_mapping [] 0 5
    (by decide)

/-! Helper lemmas for the value-validation theorem (C10). -/

lemma dedupKeepFirstAux_all_iff {α : Type} [DecidableEq α] (p : α → Bool) :
    ∀ (xs seen : List α),
      (dedupKeepFirstAux xs seen).all p = true ↔ ∀ x ∈ xs, x ∈ seen ∨ p x = true := by
  intro xs
  induction xs with
  | nil => intro seen; simp [dedupKeepFirstAux]
  | cons x xs ih =>
    intro seen
    unfold dedupKeepFirstAux
    split
    · rename_i hx
      rw [ih seen]
      constructor
      · intro h y hy
        rcases List.mem_cons.mp hy with rfl | hy'
        · exact Or.inl hx
        · exact h y hy'
      · intro h y hy
        exact h y (List.mem_cons_of_mem x hy)
    · rename_i hx
      simp only [List.all_cons, Bool.and_eq_true]
      rw [ih (x :: seen)]
      constructor
      · intro h y hy
        rcases List.mem_cons.mp hy with rfl | hy'
        · exact Or.inr h.1
        · rcases h.2 y hy' with hmem | hp
          · rcases List.mem_cons.mp hmem with rfl | hmem'
            · exact Or.inr h.1
            · exact Or.inl hmem'
          · exact Or.inr hp
      · intro h
        refine ⟨?_, ?_⟩
        · rcases h x (List.mem_cons_self x xs) with hmem | hp
          · exact absurd hmem hx
          · exact hp
        · intro y hy
          rcases h y (List.mem_cons_of_mem x hy) with hmem | hp
          · exact Or.inl (List.mem_cons_of_mem x hmem)
          · exact Or.inr hp

lemma dedupKeepFirst_all_eq {α : Type} [DecidableEq α] (p : α → Bool) (xs : List α) :
    (dedupKeepFirst xs).all p = xs.all p := by
  cases hall : xs.all p with
  | true =>
    have hx : ∀ x ∈ xs, x ∈ ([] : List α) ∨ p x = true := by
      intro x hx
      exact Or.inr (List.all_eq_true.mp hall x hx)
    exact (dedupKeepFirstAux_all_iff p xs []).mpr hx
  | false =>
    cases hv : (dedupKeepFirst xs).all p with
    | false => rfl
    | true =>
      exfalso
      have hmem := (dedupKeepFirstAux_all_iff p xs []).mp hv
      have hxs : xs.all p = true := by
        rw [List.all_eq_true]
        intro x hx
        rcases hmem x hx with hm | hp
        · exact absurd hm (List.not_mem_nil x)
        · exact hp
      rw [hall] at hxs
      exact Bool.false_ne_true hxs

/-- C10: `_validate_filter_values` equals first-occurrence deduplication
when every value is numeric (an `int` or `float`), and the empty list
otherwise — any single non-numeric element empties the ENTIRE list.  Sets
larger than 100 values only print a warning: nothing is truncated, which
this characterisation shows (the result is always the full
deduplication). -/
theorem C10_validate_filter_values_spec (vs : List PyVal) :
    validate_filter_values vs =
      if vs.all PyVal.isNumeric then dedupKeepFirst vs else [] := by
  by_cases he : vs = []
  · subst he
    rfl
  · unfold validate_filter_values
    rw [if_neg (by simpa [List.isEmpty_iff] using he)]
    show (if (dedupKeepFirst vs).all PyVal.isNumeric = true then dedupKeepFirst vs else []) = _
    rw [dedupKeepFirst_all_eq]
